import Mathlib

/-!
Verification of the µOS++ / CMSIS++ RTOS core (`src/include/cmsis-plus/rtos/os.h`)
against its natural-language specification.

The development shallowly embeds the data model and the operations of the
kernel objects the claims are about.  Machine integers are modelled as `Nat`
or `Int`; truncation is written explicitly (`% 2 ^ 32`) where the source
casts.  Functions whose bodies are inline in the header are translated from
that code; functions whose bodies live in the out-of-tree `.cpp` files are
modelled from the specification and from the contracts documented at their
declarations, and each such definition says so in its doc comment.
-/

namespace OsRtos

/-! ## Result codes

`os.h` uses `result_t = uint32_t`, with `result::ok = 0` and the error codes
taken from the toolchain's `<errno.h>` (newlib, as used by arm-none-eabi
toolchains).  Only `ok` is defined by the kernel itself; the numeric errno
values below are newlib's, and note that newlib defines `EWOULDBLOCK` to be
the same number as `EAGAIN`.
-/

def result_ok : Nat := 0

def EPERM : Nat := 1

def EINTR : Nat := 4

def EAGAIN : Nat := 11

/-- In newlib's `errno.h`, `EWOULDBLOCK` is defined as `EAGAIN`. -/
def EWOULDBLOCK : Nat := EAGAIN

def EBUSY : Nat := 16

def EINVAL : Nat := 22

def EDEADLK : Nat := 45

def ETIMEDOUT : Nat := 116

def EMSGSIZE : Nat := 122

def EOVERFLOW : Nat := 139

/-! ## Systick clock (`Systick_clock`)

`Systick_clock::ticks_cast` is a `constexpr` template inline in the header
(os.h:4852-4864):

  `return (systicks_t) ((((microsec) * ((Rep_T) frequency_hz))
       + (Rep_T) 999999ul) / (Rep_T) 1000000ul);`

`frequency_hz` is the build-time constant `OS_INTEGER_SYSTICK_FREQUENCY_HZ`
(default 1000); we keep it as a parameter.  The final cast to the 32-bit
`systicks_t` is the explicit truncation `% 2 ^ 32`.
-/

def ticks_cast (frequency_hz microsec : Nat) : Nat :=
  ((microsec * frequency_hz + 999999) / 1000000) % 2 ^ 32

/-! ## Thread priorities (`thread::priority`, os.h:885-935)

The enumeration is written in the source in terms of the pre-scaler
`constexpr uint32_t shift` (0 in this snapshot; the comment documents the
intended range 0..3, expanding 16 levels up to 128).  We keep `shift` as a
parameter and translate each enumerator's defining expression.
-/

def priority_none : Nat := 0

def priority_idle (_shift : Nat) : Nat := 1

def priority_lowest (_shift : Nat) : Nat := 2

def priority_low (shift : Nat) : Nat := 2 <<< shift

def priority_normal (shift : Nat) : Nat := 6 <<< shift

def priority_high (shift : Nat) : Nat := 10 <<< shift

def priority_highest (shift : Nat) : Nat := (16 <<< shift) - 3

def priority_isr (shift : Nat) : Nat := (16 <<< shift) - 2

def priority_error (shift : Nat) : Nat := (16 <<< shift) - 1

/-- Modelled from the spec: the body of `Thread::sched_prio (priority_t)` is
not under `src/` (only the declaration, os.h:1456-1464, is).  Per the spec,
"threads must reject priorities outside `[lowest, highest]`", and the
declaration documents `EINVAL` for an invalid priority value.  The model
returns the result code together with the thread's (possibly updated)
priority. -/
def sched_prio (shift prio cur : Nat) : Nat × Nat :=
  if priority_lowest shift ≤ prio ∧ prio ≤ priority_highest shift then
    (result_ok, prio)
  else
    (EINVAL, cur)

/-! ## Mutex (`Mutex`, `namespace mutex`)

The configuration enumerations are translated from os.h:2385-2446
(`protocol`, `robustness`, `type`, all `uint8_t` enum classes); the member
variables from os.h:2978-2995 (`owner_`, `count_`, `type_`, `protocol_`,
`robustness_`).  Threads are identified by a `Nat`; `owner_` is a nullable
pointer, hence `Option Nat`.
-/

inductive MutexType
  | normal
  | errorcheck
  | recursive
deriving DecidableEq, Repr

inductive MutexProtocol
  | none
  | inherit
  | protect
deriving DecidableEq, Repr

inductive MutexRobustness
  | stalled
  | robust
deriving DecidableEq, Repr

structure MutexState where
  owner : Option Nat
  count : Nat
  typ : MutexType
  protocol : MutexProtocol
  robustness : MutexRobustness
deriving DecidableEq, Repr

/-- `mutex::Attributes` fields (os.h:2532, 2608, 2649, 2674). -/
structure MutexAttributes where
  mx_priority_ceiling : Nat
  mx_protocol : MutexProtocol
  mx_robustness : MutexRobustness
  mx_type : MutexType
deriving DecidableEq, Repr

/-- `mutex::Attributes::Attributes` (inline in the header, os.h:5100-5108):
ceiling `thread::priority::highest`, protocol `none`, robustness `stalled`,
type `normal`.  The source snapshot fixes `shift = 0`. -/
def mutex_attributes_default : MutexAttributes :=
  { mx_priority_ceiling := priority_highest 0
    mx_protocol := MutexProtocol.none
    mx_robustness := MutexRobustness.stalled
    mx_type := MutexType.normal }

/-- `mutex::Recursive_attributes::Recursive_attributes` (inline in the
header, os.h:5110-5115): runs the base `Attributes` constructor and then
sets `mx_type = type::recursive`. -/
def mutex_recursive_attributes : MutexAttributes :=
  { mutex_attributes_default with mx_type := MutexType.recursive }

/-- A freshly constructed mutex with the given attributes: unowned, count 0
(spec §3: `count > 0 ⇔ owner ≠ ∅`). -/
def mutex_create (a : MutexAttributes) : MutexState :=
  { owner := Option.none
    count := 0
    typ := a.mx_type
    protocol := a.mx_protocol
    robustness := a.mx_robustness }

/-- Modelled from the spec: the body of `Mutex::lock` is not under `src/`
(only the declaration, os.h:2799-2849).  Per spec §4.4: unowned ⇒ owner
becomes the caller with count 1; owned by the caller ⇒ `recursive` counts
up, `errorcheck` fails `EDEADLK`, `normal` blocks; owned by another thread
⇒ block on the wait list.  `Option.none` is the blocking outcome. -/
def mutex_lock (m : MutexState) (t : Nat) : Option (Nat × MutexState) :=
  match m.owner with
  | Option.none => some (result_ok, { m with owner := some t, count := 1 })
  | some o =>
    if o = t then
      match m.typ with
      | MutexType.recursive => some (result_ok, { m with count := m.count + 1 })
      | MutexType.errorcheck => some (EDEADLK, m)
      | MutexType.normal => Option.none
    else
      Option.none

/-- Modelled from the spec: the body of `Mutex::try_lock` is not under
`src/` (only the declaration, os.h:2851-2875).  It behaves as `lock` on the
non-blocking paths but never blocks; on a mutex that is already locked the
declaration's contract documents `EBUSY` ("The mutex could not be acquired
because it was already locked", os.h:2871-2873). -/
def mutex_try_lock (m : MutexState) (t : Nat) : Nat × MutexState :=
  match m.owner with
  | Option.none => (result_ok, { m with owner := some t, count := 1 })
  | some o =>
    if o = t then
      match m.typ with
      | MutexType.recursive => (result_ok, { m with count := m.count + 1 })
      | MutexType.errorcheck => (EDEADLK, m)
      | MutexType.normal => (EBUSY, m)
    else
      (EBUSY, m)

/-- Modelled from the spec: the body of `Mutex::unlock` is not under `src/`
(only the declaration, os.h:2902-2916).  Per spec §4.4 the owner decrements
the count and at 0 the owner is cleared; per the declaration's contract a
caller that does not own the mutex gets `EPERM` ("the mutex type is
PTHREAD_MUTEX_ERRORCHECK or PTHREAD_MUTEX_RECURSIVE, or the mutex is a
robust mutex, and the current thread does not own the mutex"). -/
def mutex_unlock (m : MutexState) (t : Nat) : Nat × MutexState :=
  match m.owner with
  | some o =>
    if o = t then
      if m.count ≤ 1 then
        (result_ok, { m with owner := Option.none, count := 0 })
      else
        (result_ok, { m with count := m.count - 1 })
    else
      (EPERM, m)
  | Option.none => (EPERM, m)

/-! ## Event flags (`Event_flags`) and flag modes (`namespace flags`)

`flags::mask_t` and `flags::mode_t` are `uint32_t` (os.h:803, 812); the
mode bits are `all = 1`, `any = 2`, `clear = 4` (os.h:820-840).  Flag words
are naturals below `2 ^ 32`; the operations below never produce bits beyond
those of their inputs, so no truncation is needed.
-/

def mode_all : Nat := 1

def mode_any : Nat := 2

def mode_clear : Nat := 4

/-- Modelled from the spec: the body of `Event_flags::raise` is not under
`src/` (only the declaration, os.h:4659-4669).  Spec §4.7: "`raise(bits)`
OR-s into the word".  The result is the new flag word. -/
def event_flags_raise (w mask : Nat) : Nat := w ||| mask

/-- Modelled from the spec: the body of `Event_flags::clear` is not under
`src/` (only the declaration, os.h:4671-4680).  Spec §4.7: "`clear(bits)`
AND-NOT-s"; `Nat.ldiff` is exactly bitwise AND-NOT. -/
def event_flags_clear (w mask : Nat) : Nat := Nat.ldiff w mask

/-- Modelled from the spec: the body of `Event_flags::get` is not under
`src/` (only the declaration, os.h:4682-4690).  Spec §4.7: "`get(mask,
mode)` is a non-blocking read with optional clear"; the declaration returns
"the selected bits from the flags mask" and clears them when the
`mode::clear` bit is set.  The result is (returned value, new flag word). -/
def event_flags_get (w mask mode : Nat) : Nat × Nat :=
  (w &&& mask, if mode &&& mode_clear ≠ 0 then Nat.ldiff w mask else w)

/-! ## Thread signal flags (`Thread::sig_raise`, `this_thread::sig_wait`)

A thread's private signal word is a `flags::mask_t` (32-bit).
-/

/-- Modelled from the spec: the body of `Thread::sig_raise` is not under
`src/` (only the declaration, os.h:1545-1555).  The declaration's contract
lists `EINVAL` when the mask is zero and `EPERM` when invoked from an
Interrupt Service Routine; otherwise the mask is OR-ed into the thread's
signal word (spec §4.11).  The result is (result code, new signal word). -/
def sig_raise (handler_mode : Bool) (w mask : Nat) : Nat × Nat :=
  if mask = 0 then (EINVAL, w)
  else if handler_mode then (EPERM, w)
  else (result_ok, w ||| mask)

/-- Modelled from the spec: the eligibility predicate of
`this_thread::sig_wait` (declaration os.h:1082-1098).  Spec §4.11/§4.7:
mode `all` requires every bit of `mask` raised, mode `any` at least one. -/
def sig_wait_eligible (w mask mode : Nat) : Bool :=
  if mode &&& mode_any ≠ 0 then w &&& mask ≠ 0
  else w &&& mask = mask

/-- Modelled from the spec: the non-blocking outcome of
`this_thread::sig_wait (mask, oflags, mode)` once eligible.  The output
flags `oflags` receive the current signal word; with `mode::clear` the
matched bits are cleared atomically with the observation (spec §4.11).
`Option.none` means the caller blocks (predicate not yet satisfied). -/
def sig_wait (w mask mode : Nat) : Option (Nat × Nat × Nat) :=
  if sig_wait_eligible w mask mode then
    some (result_ok, w,
      if mode &&& mode_clear ≠ 0 then Nat.ldiff w mask else w)
  else
    Option.none

/-! ## Ready-set selection

Spec §4.1: "Strict priority; within a priority, FIFO order of insertion
into the ready set."  The ready set is modelled as the list of (thread id,
priority) pairs in insertion order; selection returns the first entry whose
priority is not exceeded by any other (higher values = higher priorities,
os.h:859).
-/

def scheduler_select : List (Nat × Nat) → Option (Nat × Nat)
  | [] => Option.none
  | x :: xs =>
    match scheduler_select xs with
    | Option.none => some x
    | some y => if y.2 > x.2 then some y else some x

/-! ## Semaphore (`Semaphore`)

`semaphore::count_t` is the signed `int16_t` (os.h:3238) and
`max_count_value = 0x7FFF` (os.h:3245); the members are `initial_count_`,
`count_`, `max_count_` (os.h:3592-3598).  The inline `Semaphore::value`
returns `count_`, and its documentation (os.h:5197-5208) fixes the count
representation: "If positive, the semaphore value reflects the number of
available resources.  If negative, it counts the waiting threads."  We
carry the length of the FIFO wait list as an explicit `waiters` component.
-/

structure SemaphoreState where
  initial_count : Int
  count : Int
  max_count : Int
  waiters : Nat
deriving DecidableEq, Repr

/-- `Semaphore::value` (inline in the header, os.h:5204-5208): returns
`count_`. -/
def semaphore_value (s : SemaphoreState) : Int := s.count

/-- Modelled from the spec: the body of `Semaphore::wait` is not under
`src/` (only the declaration, os.h:3297-3316).  Spec §4.6: "if count > 0,
count--; else block"; blocking appends the caller to the FIFO wait list,
and per the documented representation of `value` (os.h:5197-5208) the
count then goes negative, counting the waiting threads.  The `Bool` is
`true` when the caller acquired the semaphore without blocking. -/
def semaphore_wait (s : SemaphoreState) : Bool × SemaphoreState :=
  if s.count > 0 then
    (true, { s with count := s.count - 1 })
  else
    (false, { s with count := s.count - 1, waiters := s.waiters + 1 })

/-- Modelled from the spec: the body of `Semaphore::post` is not under
`src/` (only the declaration, os.h:3285-3295, whose contract documents
`EOVERFLOW` when the max count was exceeded).  Spec §4.6: if waiters
exist, unpark one and consume the token; else if count < max, count++;
else overflow.  In the negative-count representation both non-error cases
increment `count_`. -/
def semaphore_post (s : SemaphoreState) : Nat × SemaphoreState :=
  if s.count ≥ s.max_count then
    (EOVERFLOW, s)
  else if s.waiters > 0 then
    (result_ok, { s with count := s.count + 1, waiters := s.waiters - 1 })
  else
    (result_ok, { s with count := s.count + 1 })

/-- A freshly constructed semaphore: count at the initial count, no
waiters (`semaphore::Attributes`, os.h:5165-5173). -/
def semaphore_create (initial max : Int) : SemaphoreState :=
  { initial_count := initial, count := initial, max_count := max, waiters := 0 }

/-- The semaphore state invariant tying `count_` to the wait list, per the
documented representation of `Semaphore::value` (os.h:5197-5208): the
count never exceeds the max, a negative count counts the waiting threads,
and a non-negative count means nobody waits. -/
def semaphore_inv (s : SemaphoreState) : Prop :=
  s.count ≤ s.max_count ∧
    (s.count < 0 → (s.waiters : Int) = -s.count) ∧
    (0 ≤ s.count → s.waiters = 0)

/-! ## Memory pool (`Memory_pool`)

Members (os.h:3978-3996 and accessors inline at os.h:5259-5281):
`blocks_` is the capacity, `count_` the number of blocks in use
("The number of blocks used", os.h:3901-3909). -/

structure MemoryPoolState where
  blocks_ : Nat
  block_size_bytes : Nat
  count_ : Nat
deriving DecidableEq, Repr

/-- `Memory_pool::capacity` (inline, os.h:5246-5250): returns `blocks_`. -/
def mempool_capacity (p : MemoryPoolState) : Nat := p.blocks_

/-- `Memory_pool::count` (inline, os.h:5259-5263): returns `count_`, the
number of allocated blocks. -/
def mempool_count (p : MemoryPoolState) : Nat := p.count_

/-- `Memory_pool::empty` (inline, os.h:5265-5269): `count () == 0`. -/
def mempool_empty (p : MemoryPoolState) : Bool := mempool_count p == 0

/-- `Memory_pool::full` (inline, os.h:5271-5275): `count () == capacity ()`. -/
def mempool_full (p : MemoryPoolState) : Bool :=
  mempool_count p == mempool_capacity p

/-- Modelled from the spec: the body of `Memory_pool::try_alloc` is not
under `src/`.  Spec §4.8: "`try_alloc` returns null on empty [free list]";
otherwise it pops the free-list head, so one more block is in use.  The
`Bool` is `true` when a block was handed out. -/
def mempool_try_alloc (p : MemoryPoolState) : Bool × MemoryPoolState :=
  if p.count_ < p.blocks_ then
    (true, { p with count_ := p.count_ + 1 })
  else
    (false, p)

/-- Modelled from the spec: the body of `Memory_pool::free` is not under
`src/`.  Spec §4.8: "`free` pushes [the block back on the free list]", so
one fewer block is in use. -/
def mempool_free (p : MemoryPoolState) : MemoryPoolState :=
  { p with count_ := p.count_ - 1 }

/-! ## Priority message queue (`Message_queue`)

`mqueue::priority_t` is a `uint8_t` "which controls the order in which
messages are added to the queue (higher values represent higher
priorities)" (os.h:4043-4050).  A message is (payload, priority); the
storage is kept ordered, highest priority first and FIFO within a
priority (spec §4.9). -/

structure MQMsg where
  payload : Nat
  prio : Nat
deriving DecidableEq, Repr

/-- Modelled from the spec: the enqueue step of `Message_queue::send`
(declaration os.h:4205-4232; body not under `src/`).  Per os.h:4043-4050
the priority controls the order in which messages are added: the new
message goes after every queued message of equal or higher priority and
before the first of strictly lower priority (FIFO within a priority). -/
def mqueue_insert (q : List MQMsg) (m : MQMsg) : List MQMsg :=
  match q with
  | [] => [m]
  | x :: xs => if m.prio > x.prio then m :: x :: xs else x :: mqueue_insert xs m

/-- Modelled from the spec: the send step with the capacity guard.  Spec
§4.9: `send` "blocks on full in the send-wait list"; `Option.none` is the
blocking outcome. -/
def mqueue_send (cap : Nat) (q : List MQMsg) (m : MQMsg) :
    Option (List MQMsg) :=
  if q.length < cap then some (mqueue_insert q m) else Option.none

/-- Modelled from the spec: the dequeue step of `Message_queue::receive`
(declaration os.h:4288-4307; body not under `src/`).  Spec §4.9: "copies
the highest-priority-oldest message out; blocks on empty" — with the
storage kept ordered, that message is the head. -/
def mqueue_receive (q : List MQMsg) : Option (MQMsg × List MQMsg) :=
  match q with
  | [] => Option.none
  | x :: xs => some (x, xs)

/-- The ordering invariant of the queue storage: priorities are
non-increasing from head to tail. -/
def mqueue_sorted (q : List MQMsg) : Prop :=
  List.Chain' (fun a b => b.prio ≤ a.prio) q

/-! ## Theorems -/

/-- C5 (counterexample): the claim asserts `ticks_cast(1) = 1` at any tick
frequency, but at `F_Hz = 2000000` the source formula yields
`ceil(2000000 / 1000000) = 2`, not `1`. -/
theorem ticks_cast_one_at_two_mhz :
    ticks_cast 2000000 1 = 2 ∧ (2 : Nat) ≠ 1 := by
  constructor
  · rfl
  · decide

/-- C5 (amended): whenever the rounded-up value fits in the 32-bit
`systicks_t`, `ticks_cast(us)` is exactly `ceil(us * F_Hz / 1000000)`,
characterised as the least number of ticks covering `us` microseconds;
`ticks_cast(0) = 0` at any frequency, and `ticks_cast(1) = 1` whenever
`1 ≤ F_Hz ≤ 1000000`. -/
theorem ticks_cast_correct (f us : Nat)
    (hfit : (us * f + 999999) / 1000000 < 2 ^ 32) :
    (us * f ≤ ticks_cast f us * 1000000 ∧
      ∀ n, us * f ≤ n * 1000000 → ticks_cast f us ≤ n) ∧
    ticks_cast f 0 = 0 ∧
    (1 ≤ f → f ≤ 1000000 → ticks_cast f 1 = 1) := by
  have hmod : ticks_cast f us = (us * f + 999999) / 1000000 := by
    simpa [ticks_cast] using Nat.mod_eq_of_lt hfit
  refine ⟨⟨?_, ?_⟩, ?_, ?_⟩
  · rw [hmod]
    have h := Nat.div_add_mod (us * f + 999999) 1000000
    have hlt : (us * f + 999999) % 1000000 < 1000000 :=
      Nat.mod_lt _ (by norm_num)
    omega
  · intro n hn
    rw [hmod]
    have h1 : (us * f + 999999) / 1000000 ≤ (n * 1000000 + 999999) / 1000000 :=
      Nat.div_le_div_right (Nat.add_le_add_right hn _)
    have h2 : (n * 1000000 + 999999) / 1000000 = n := by
      rw [Nat.mul_comm n 1000000, Nat.mul_add_div (by norm_num)]
      norm_num
    omega
  · simp [ticks_cast]
  · intro h1 h2
    have hdiv : (f + 999999) / 1000000 = 1 :=
      Nat.div_eq_of_lt_le (by omega) (by omega)
    simp [ticks_cast, Nat.one_mul, hdiv]

/-- C5 (witness): at the default frequency 1000 Hz, one microsecond is
rounded up to one tick. -/
theorem ticks_cast_correct_witness : ticks_cast 1000 1 = 1 :=
  (ticks_cast_correct 1000 1 (by norm_num)).2.2 (by norm_num) (by norm_num)

/-- C8: with pre-scaler shift `S` the priority space ends at
`error = (16 << S) - 1`, hence has `16 << S` levels; `idle = 1`,
`isr = (16 << S) - 2`, and the user range is
`[lowest, highest] = [2, (16 << S) - 3]`; `sched_prio` rejects any
priority outside that range with `EINVAL`, leaving the priority
unchanged. -/
theorem priority_space_correct (S : Nat) :
    priority_error S + 1 = 16 <<< S ∧
    priority_idle S = 1 ∧
    priority_isr S = 16 <<< S - 2 ∧
    priority_error S = 16 <<< S - 1 ∧
    priority_lowest S = 2 ∧
    priority_highest S = 16 <<< S - 3 ∧
    (∀ p cur, p < priority_lowest S ∨ priority_highest S < p →
      sched_prio S p cur = (EINVAL, cur)) := by
  have hpow : 0 < 2 ^ S := Nat.pos_pow_of_pos S (by norm_num)
  have h16 : 16 <<< S = 16 * 2 ^ S := by
    simp [Nat.shiftLeft_eq]
  refine ⟨?_, rfl, rfl, rfl, rfl, rfl, ?_⟩
  · simp only [priority_error, h16]
    omega
  · intro p cur hp
    have : ¬ (priority_lowest S ≤ p ∧ p ≤ priority_highest S) := by
      rcases hp with h | h
      · exact fun hc => absurd hc.1 (by omega)
      · exact fun hc => absurd hc.2 (by omega)
    simp [sched_prio, this]

/-- C8 (witness): with shift 0, setting priority 200 (beyond
`highest = 13`) is rejected with `EINVAL` and the priority stays at its
current value 6. -/
theorem priority_space_correct_witness : sched_prio 0 200 6 = (EINVAL, 6) :=
  (priority_space_correct 0).2.2.2.2.2.2 200 6 (Or.inr (by decide))

/-- C9: `Memory_pool::empty` is true exactly when the number of blocks in
use is zero and `Memory_pool::full` exactly when it equals the capacity;
on a full pool with positive capacity no block can be allocated yet the
pool is *not* "empty", and `try_alloc`/`free` move the in-use count up and
down by one. -/
theorem mempool_empty_full_correct (p : MemoryPoolState) :
    (mempool_empty p = true ↔ mempool_count p = 0) ∧
    (mempool_full p = true ↔ mempool_count p = mempool_capacity p) ∧
    (mempool_full p = true → 0 < mempool_capacity p →
      mempool_empty p = false ∧ (mempool_try_alloc p).1 = false) ∧
    (mempool_count p < mempool_capacity p →
      (mempool_try_alloc p).1 = true ∧
        mempool_count (mempool_try_alloc p).2 = mempool_count p + 1) ∧
    mempool_count (mempool_free p) = mempool_count p - 1 := by
  refine ⟨?_, ?_, ?_, ?_, ?_⟩
  · simp [mempool_empty, mempool_count]
  · simp [mempool_full, mempool_count, mempool_capacity]
  · intro hfull hcap
    simp only [mempool_full, mempool_count, mempool_capacity,
      beq_iff_eq] at hfull
    constructor
    · simp only [mempool_empty, mempool_count, beq_eq_false_iff_ne, ne_eq]
      simp only [mempool_capacity] at hcap
      omega
    · simp only [mempool_try_alloc]
      simp only [mempool_capacity] at hcap
      rw [if_neg (by omega)]
  · intro hlt
    simp only [mempool_count, mempool_capacity] at hlt
    simp [mempool_try_alloc, mempool_count, hlt]
  · simp [mempool_free, mempool_count]

/-- C9 (witness): a pool with 4 blocks, all 4 in use, is full, is not
"empty", and `try_alloc` hands out nothing. -/
theorem mempool_empty_full_correct_witness :
    mempool_empty ⟨4, 16, 4⟩ = false ∧
      (mempool_try_alloc ⟨4, 16, 4⟩).1 = false :=
  (mempool_empty_full_correct ⟨4, 16, 4⟩).2.2.1 (by decide) (by decide)

/-- C10: default mutex attributes are type `normal`, protocol `none`,
robustness `stalled`, ceiling `thread::priority::highest`; the recursive
attributes differ from the default only in the type, which is
`recursive`. -/
theorem mutex_attributes_correct :
    mutex_attributes_default.mx_type = MutexType.normal ∧
    mutex_attributes_default.mx_protocol = MutexProtocol.none ∧
    mutex_attributes_default.mx_robustness = MutexRobustness.stalled ∧
    mutex_attributes_default.mx_priority_ceiling = priority_highest 0 ∧
    mutex_recursive_attributes.mx_type = MutexType.recursive ∧
    mutex_recursive_attributes.mx_protocol =
      mutex_attributes_default.mx_protocol ∧
    mutex_recursive_attributes.mx_robustness =
      mutex_attributes_default.mx_robustness ∧
    mutex_recursive_attributes.mx_priority_ceiling =
      mutex_attributes_default.mx_priority_ceiling := by
  refine ⟨rfl, rfl, rfl, rfl, rfl, rfl, rfl, rfl⟩

/-- C2 (counterexample): on a normal mutex held by thread 1, `try_lock`
from thread 2 returns `EBUSY` (per the contract at os.h:2871-2873), which
is not `EWOULDBLOCK` (`EAGAIN`), so the claim's `ERR_WOULDBLOCK` return
value is wrong. -/
theorem mutex_try_lock_not_wouldblock :
    (mutex_try_lock
        ⟨some 1, 1, MutexType.normal, MutexProtocol.none,
          MutexRobustness.stalled⟩ 2).1 = EBUSY ∧
      (mutex_try_lock
        ⟨some 1, 1, MutexType.normal, MutexProtocol.none,
          MutexRobustness.stalled⟩ 2).1 ≠ EWOULDBLOCK := by
  constructor
  · rfl
  · decide

/-- C2 (amended): for every mutex currently locked by another thread,
`try_lock` leaves the mutex unchanged and returns `EBUSY` (not
`ERR_WOULDBLOCK`); `lock` would block in that same state, so `try_lock`
indeed behaves as `lock` without blocking. -/
theorem mutex_try_lock_busy (m : MutexState) (t o : Nat)
    (howner : m.owner = some o) (hne : o ≠ t) :
    mutex_try_lock m t = (EBUSY, m) ∧
      mutex_lock m t = Option.none ∧
      EBUSY ≠ EWOULDBLOCK := by
  refine ⟨?_, ?_, by decide⟩
  · simp [mutex_try_lock, howner, hne]
  · simp [mutex_lock, howner, hne]

/-- C2 (witness): thread 2 fails with `EBUSY` on a mutex owned by
thread 1, which stays unchanged. -/
theorem mutex_try_lock_busy_witness :
    mutex_try_lock
        ⟨some 1, 1, MutexType.normal, MutexProtocol.none,
          MutexRobustness.stalled⟩ 2 =
      (EBUSY,
        ⟨some 1, 1, MutexType.normal, MutexProtocol.none,
          MutexRobustness.stalled⟩) :=
  (mutex_try_lock_busy _ 2 1 rfl (by decide)).1

/-- C4: locking a recursive mutex three times from a thread `t1` and
unlocking three times yields the count sequence 1, 2, 3, 2, 1, 0, with the
owner equal to `t1` at every state of positive count and null at count 0;
a fourth unlock returns `EPERM` and changes nothing. -/
theorem mutex_recursive_lock_unlock (t1 : Nat) :
    ∃ m1 m2 m3 m4 m5 m6 : MutexState,
      mutex_lock (mutex_create mutex_recursive_attributes) t1 =
          some (result_ok, m1) ∧
        m1.count = 1 ∧ m1.owner = some t1 ∧
      mutex_lock m1 t1 = some (result_ok, m2) ∧
        m2.count = 2 ∧ m2.owner = some t1 ∧
      mutex_lock m2 t1 = some (result_ok, m3) ∧
        m3.count = 3 ∧ m3.owner = some t1 ∧
      mutex_unlock m3 t1 = (result_ok, m4) ∧
        m4.count = 2 ∧ m4.owner = some t1 ∧
      mutex_unlock m4 t1 = (result_ok, m5) ∧
        m5.count = 1 ∧ m5.owner = some t1 ∧
      mutex_unlock m5 t1 = (result_ok, m6) ∧
        m6.count = 0 ∧ m6.owner = Option.none ∧
      mutex_unlock m6 t1 = (EPERM, m6) := by
  refine ⟨⟨some t1, 1, MutexType.recursive, MutexProtocol.none,
      MutexRobustness.stalled⟩,
    ⟨some t1, 2, MutexType.recursive, MutexProtocol.none,
      MutexRobustness.stalled⟩,
    ⟨some t1, 3, MutexType.recursive, MutexProtocol.none,
      MutexRobustness.stalled⟩,
    ⟨some t1, 2, MutexType.recursive, MutexProtocol.none,
      MutexRobustness.stalled⟩,
    ⟨some t1, 1, MutexType.recursive, MutexProtocol.none,
      MutexRobustness.stalled⟩,
    ⟨Option.none, 0, MutexType.recursive, MutexProtocol.none,
      MutexRobustness.stalled⟩, ?_⟩
  simp [mutex_lock, mutex_unlock, mutex_create, mutex_recursive_attributes,
    mutex_attributes_default]

/-- C4 (witness): the recursive lock/unlock scenario instantiated at
thread id 1. -/
theorem mutex_recursive_lock_unlock_witness :
    ∃ m1 m2 m3 m4 m5 m6 : MutexState,
      mutex_lock (mutex_create mutex_recursive_attributes) 1 =
          some (result_ok, m1) ∧
        m1.count = 1 ∧ m1.owner = some 1 ∧
      mutex_lock m1 1 = some (result_ok, m2) ∧
        m2.count = 2 ∧ m2.owner = some 1 ∧
      mutex_lock m2 1 = some (result_ok, m3) ∧
        m3.count = 3 ∧ m3.owner = some 1 ∧
      mutex_unlock m3 1 = (result_ok, m4) ∧
        m4.count = 2 ∧ m4.owner = some 1 ∧
      mutex_unlock m4 1 = (result_ok, m5) ∧
        m5.count = 1 ∧ m5.owner = some 1 ∧
      mutex_unlock m5 1 = (result_ok, m6) ∧
        m6.count = 0 ∧ m6.owner = Option.none ∧
      mutex_unlock m6 1 = (EPERM, m6) :=
  mutex_recursive_lock_unlock 1

/-- C1 (counterexample): a binary semaphore created with initial count 0
violates the claim after a single (blocking) `wait`: the count drops to
-1, so `0 ≤ current` fails and `Semaphore::value()` returns a negative
number — exactly the negative-waiter count its own documentation
(os.h:5197-5208) describes. -/
theorem semaphore_value_negative :
    semaphore_value (semaphore_wait (semaphore_create 0 1)).2 = -1 ∧
      ¬ (0 ≤ semaphore_value (semaphore_wait (semaphore_create 0 1)).2) ∧
      (semaphore_wait (semaphore_create 0 1)).2.waiters = 1 := by
  refine ⟨?_, by decide, ?_⟩ <;> rfl

/-- C1 (amended): the semaphore invariant — `current ≤ max` always,
`current = -#waiters` whenever `current < 0`, and no waiters whenever
`current ≥ 0` (in particular whenever `current > 0`) — holds for every
freshly created semaphore with `0 ≤ initial ≤ max` and is preserved by
`wait` and `post`; so `0 ≤ current ≤ max` holds exactly when no thread
waits, and `Semaphore::value()` is negative exactly when threads wait,
counting them. -/
theorem semaphore_inv_correct (s : SemaphoreState) (h : semaphore_inv s) :
    (0 < s.count → s.waiters = 0) ∧
      s.count ≤ s.max_count ∧
      (s.count < 0 → (s.waiters : Int) = -s.count) ∧
      semaphore_inv (semaphore_wait s).2 ∧
      semaphore_inv (semaphore_post s).2 ∧
      (∀ i m : Int, 0 ≤ i → i ≤ m → semaphore_inv (semaphore_create i m)) := by
  obtain ⟨hmax, hneg, hpos⟩ := h
  refine ⟨fun hc => hpos (le_of_lt hc), hmax, hneg, ?_, ?_, ?_⟩
  · unfold semaphore_wait semaphore_inv
    split <;> rename_i hc <;> simp only at * <;>
      refine ⟨by omega, fun h2 => ?_, fun h2 => ?_⟩ <;> omega
  · unfold semaphore_post semaphore_inv
    split
    · exact ⟨hmax, hneg, hpos⟩
    · rename_i hc
      split <;> rename_i hw <;> simp only at * <;>
        refine ⟨by omega, fun h2 => ?_, fun h2 => ?_⟩ <;> omega
  · intro i m h1 h2
    exact ⟨h2, fun hlt => absurd h1 (not_le.mpr hlt), fun _ => rfl⟩

/-- C1 (witness): the invariant holds after a blocking `wait` on a fresh
binary semaphore. -/
theorem semaphore_inv_correct_witness :
    semaphore_inv (semaphore_wait (semaphore_create 0 1)).2 :=
  (semaphore_inv_correct (semaphore_create 0 1)
    ⟨by decide, fun h => absurd h (by decide), fun _ => rfl⟩).2.2.2.1

/-! ### Bitwise helper lemmas -/

theorem ldiff_lor_self (w m : Nat) : Nat.ldiff (w ||| m) m = Nat.ldiff w m := by
  apply Nat.eq_of_testBit_eq
  intro i
  simp only [Nat.testBit_ldiff, Nat.testBit_lor]
  cases w.testBit i <;> cases m.testBit i <;> rfl

theorem ldiff_eq_self_of_disjoint (w m : Nat) (h : w &&& m = 0) :
    Nat.ldiff w m = w := by
  apply Nat.eq_of_testBit_eq
  intro i
  have hb : (w &&& m).testBit i = false := by
    simp [h]
  simp only [Nat.testBit_land] at hb
  simp only [Nat.testBit_ldiff]
  cases hw : w.testBit i <;> cases hm : m.testBit i <;>
    simp_all

theorem lor_land_self (a b : Nat) : (a ||| b) &&& b = b := by
  apply Nat.eq_of_testBit_eq
  intro i
  simp only [Nat.testBit_land, Nat.testBit_lor]
  cases a.testBit i <;> cases b.testBit i <;> rfl

theorem ldiff_land_self (a b : Nat) : Nat.ldiff a b &&& b = 0 := by
  apply Nat.eq_of_testBit_eq
  intro i
  simp only [Nat.testBit_land, Nat.testBit_ldiff, Nat.zero_testBit]
  cases a.testBit i <;> cases b.testBit i <;> rfl

theorem ldiff_self_eq_zero (a : Nat) : Nat.ldiff a a = 0 := by
  apply Nat.eq_of_testBit_eq
  intro i
  simp only [Nat.testBit_ldiff, Nat.zero_testBit]
  cases a.testBit i <;> rfl

/-- C3 (counterexample): with the bit already raised, raising and then
clearing it does not restore the word: starting from flag word 1 and mask
1, `raise` then `clear` yields 0, not the original 1. -/
theorem event_flags_raise_clear_not_id :
    event_flags_clear (event_flags_raise 1 1) 1 = 0 ∧ (0 : Nat) ≠ 1 := by
  have h : event_flags_raise 1 1 = 1 := by decide
  constructor
  · rw [h]
    exact ldiff_self_eq_zero 1
  · decide

/-- C3 (amended): `raise(m)` followed by `clear(m)` leaves the flag word
equal to its value before the raise *with the `m` bits cleared* — equal to
the original word exactly in the case that none of the `m` bits were
already set; and `get(mask, mode)` with the clear mode bit behaves as
`get(mask, mode without clear)` followed by `clear(mask)`: the returned
values agree and so do the resulting flag words. -/
theorem event_flags_correct (w m mask mode : Nat) :
    event_flags_clear (event_flags_raise w m) m = Nat.ldiff w m ∧
      (w &&& m = 0 → event_flags_clear (event_flags_raise w m) m = w) ∧
      (event_flags_get w mask (mode ||| mode_clear)).1 =
        (event_flags_get w mask (Nat.ldiff mode mode_clear)).1 ∧
      (event_flags_get w mask (mode ||| mode_clear)).2 =
        event_flags_clear
          (event_flags_get w mask (Nat.ldiff mode mode_clear)).2 mask := by
  refine ⟨?_, ?_, rfl, ?_⟩
  · exact ldiff_lor_self w m
  · intro h
    rw [event_flags_clear, event_flags_raise, ldiff_lor_self,
      ldiff_eq_self_of_disjoint w m h]
  · have h1 : (mode ||| 4) &&& 4 = 4 := lor_land_self mode 4
    have h2 : Nat.ldiff mode 4 &&& 4 = 0 := ldiff_land_self mode 4
    simp [event_flags_get, event_flags_clear, mode_clear, h1, h2]

/-- C3 (witness): with flag word 8 and mask 1 (disjoint), raise then clear
restores the word. -/
theorem event_flags_correct_witness :
    event_flags_clear (event_flags_raise 8 1) 1 = 8 :=
  (event_flags_correct 8 1 0 0).2.1 (by decide)

/-- C7 (counterexample): raising signal bit 0x1 on a thread from an
Interrupt Service Routine fails with `EPERM` — the contract at
os.h:1545-1555 explicitly lists "EPERM Cannot be invoked from an Interrupt
Service Routines" — so the claim that `sig_raise` does not fail with
`ERR_PERM` in handler mode is wrong, and the word stays 0, leaving the
waiter blocked. -/
theorem sig_raise_eperm_in_handler :
    sig_raise true 0 1 = (EPERM, 0) ∧
      EPERM ≠ result_ok ∧
      sig_wait 0 1 mode_any = Option.none := by
  refine ⟨by decide, by decide, by decide⟩

/-- C7 (amended): `sig_raise` with a non-zero mask fails with `EPERM` in
handler mode, leaving the signal word (and hence the waiter) untouched;
raised instead from thread context, bit 0x1 is OR-ed in with result `OK`,
the thread `sig_waiting` for mask 0x1 in mode `any` becomes eligible and
its wait yields `OK` with `oflags = 0x1`, and the scheduler then selects
the woken high-priority thread (priority 10) over the running
low-priority one (priority 2). -/
theorem sig_raise_wakeup (w mask tlow thigh : Nat) (hmask : mask ≠ 0) :
    sig_raise true w mask = (EPERM, w) ∧
      sig_wait 0 1 mode_any = Option.none ∧
      sig_raise false 0 1 = (result_ok, 1) ∧
      sig_wait 1 1 mode_any = some (result_ok, 1, 1) ∧
      scheduler_select [(tlow, priority_low 0), (thigh, priority_high 0)] =
        some (thigh, priority_high 0) := by
  refine ⟨?_, by decide, by decide, by decide, ?_⟩
  · simp [sig_raise, hmask]
  · norm_num [scheduler_select, priority_low, priority_high]

/-- C7 (witness): raising 0x1 from handler mode on signal word 0 returns
`EPERM` with the word unchanged. -/
theorem sig_raise_wakeup_witness : sig_raise true 0 1 = (EPERM, 0) :=
  (sig_raise_wakeup 0 1 1 2 (by decide)).1

/-! ### Message-queue ordering helper lemmas -/

theorem mqueue_insert_sorted (q : List MQMsg) (m : MQMsg)
    (h : mqueue_sorted q) : mqueue_sorted (mqueue_insert q m) := by
  induction q with
  | nil => simp [mqueue_insert, mqueue_sorted]
  | cons x xs ih =>
    have hxs : mqueue_sorted xs := h.tail
    by_cases hc : m.prio > x.prio
    · simp only [mqueue_insert, if_pos hc]
      exact List.chain'_cons.mpr ⟨le_of_lt hc, h⟩
    · simp only [mqueue_insert, if_neg hc]
      refine List.chain'_cons'.mpr ⟨?_, ih hxs⟩
      intro y hy
      cases xs with
      | nil =>
        simp only [mqueue_insert, List.head?_cons, Option.mem_def,
          Option.some.injEq] at hy
        subst hy
        omega
      | cons z zs =>
        simp only [mqueue_insert] at hy
        by_cases hz : m.prio > z.prio
        · rw [if_pos hz] at hy
          simp only [List.head?_cons, Option.mem_def, Option.some.injEq] at hy
          subst hy
          omega
        · rw [if_neg hz] at hy
          simp only [List.head?_cons, Option.mem_def, Option.some.injEq] at hy
          subst hy
          exact (List.chain'_cons.mp h).1

theorem mqueue_sorted_le_head (l : List MQMsg) (a : MQMsg)
    (h : mqueue_sorted (a :: l)) : ∀ x ∈ l, x.prio ≤ a.prio := by
  induction l generalizing a with
  | nil => intro x hx; simp at hx
  | cons z zs ih =>
    intro x hx
    have h1 : z.prio ≤ a.prio := (List.chain'_cons.mp h).1
    have h2 : mqueue_sorted (z :: zs) := (List.chain'_cons.mp h).2
    rcases List.mem_cons.mp hx with rfl | hx'
    · exact h1
    · exact le_trans (ih z h2 x hx') h1

/-- C6: three `send`s with priorities (3, 7, 3) and three `receive`s yield
the messages in the order 7, first 3, second 3; in general the storage
insertion keeps the queue ordered and `receive` takes a message whose
priority is maximal. -/
theorem mqueue_priority_order (a b c : Nat) :
    (mqueue_send 3 [] ⟨a, 3⟩ = some [⟨a, 3⟩] ∧
      mqueue_send 3 [⟨a, 3⟩] ⟨b, 7⟩ = some [⟨b, 7⟩, ⟨a, 3⟩] ∧
      mqueue_send 3 [⟨b, 7⟩, ⟨a, 3⟩] ⟨c, 3⟩ =
        some [⟨b, 7⟩, ⟨a, 3⟩, ⟨c, 3⟩] ∧
      mqueue_receive [⟨b, 7⟩, ⟨a, 3⟩, ⟨c, 3⟩] =
        some (⟨b, 7⟩, [⟨a, 3⟩, ⟨c, 3⟩]) ∧
      mqueue_receive [⟨a, 3⟩, ⟨c, 3⟩] = some (⟨a, 3⟩, [⟨c, 3⟩]) ∧
      mqueue_receive [⟨c, 3⟩] = some (⟨c, 3⟩, [])) ∧
    (∀ q m, mqueue_sorted q → mqueue_sorted (mqueue_insert q m)) ∧
    (∀ q hd tl, mqueue_sorted q → mqueue_receive q = some (hd, tl) →
      ∀ x ∈ q, x.prio ≤ hd.prio) := by
  refine ⟨⟨?_, ?_, ?_, rfl, rfl, rfl⟩, mqueue_insert_sorted, ?_⟩
  · norm_num [mqueue_send, mqueue_insert]
  · norm_num [mqueue_send, mqueue_insert]
  · norm_num [mqueue_send, mqueue_insert]
  · intro q hd tl hs hr x hx
    cases q with
    | nil => simp [mqueue_receive] at hr
    | cons y l =>
      have hy : y = hd ∧ l = tl := by
        simpa [mqueue_receive, Prod.ext_iff] using hr
      obtain ⟨rfl, rfl⟩ := hy
      rcases List.mem_cons.mp hx with rfl | hx'
      · exact le_refl _
      · exact mqueue_sorted_le_head l y hs x hx'

/-- C6 (witness): inserting a second priority-9 message behind an existing
one keeps the storage ordered. -/
theorem mqueue_priority_order_witness :
    mqueue_sorted (mqueue_insert [⟨5, 9⟩] ⟨6, 9⟩) :=
  (mqueue_priority_order 0 0 0).2.1 [⟨5, 9⟩] ⟨6, 9⟩ (by simp [mqueue_sorted])

end OsRtos
